import Mathlib

/-!
Shallow embedding of `web.py` (python-github-index): an HTTP gateway that
renders a PEP 503 simple index for GitHub release assets and proxies asset
downloads.  Python dicts of headers are modelled as association lists with
python-dict `get`/`update` semantics; handlers are pure functions from an
upstream oracle (`String → UpstreamResponse`) and the inbound request data
to a result paired with the list of outbound-call events they performed.
Python exceptions escaping a handler are modelled as the `pyError` result.
Character escaping performed by the XML serializer and URL encoder is not
modelled; no claim involves characters that would require escapes.
-/

/-- Headers / registries: a python `dict` with string keys and values,
modelled as an association list in insertion order. -/
abbrev Dict := List (String × String)

/-- Python `d[k]` / `d.get(k)`: first binding of `k`, if any. -/
def Dict.get (d : Dict) (k : String) : Option String :=
  (d.find? fun kv => kv.1 == k).map fun kv => kv.2

/-- Python `d[k] = v`: replace the binding in place if the key exists,
otherwise append it. -/
def Dict.insert (d : Dict) (k v : String) : Dict :=
  if (d.find? fun kv => kv.1 == k).isSome then
    d.map fun kv => if kv.1 == k then (k, v) else kv
  else
    d ++ [(k, v)]

/-- Python `d.update(e)`: set every binding of `e` into `d`. -/
def Dict.update (d e : Dict) : Dict :=
  e.foldl (fun acc kv => Dict.insert acc kv.1 kv.2) d

/-- The python `TypeError` raised by `dict.update(None)`. -/
def typeErrorNoneNotIterable : String := "TypeError: NoneType object is not iterable"

/-- Embeds `_create_session(request, overwrite_headers=None)`.  The inbound
request is represented by its header dict; the created `aiohttp.ClientSession`
is represented by its default-header dict (`none` = no default headers, as
when `aiohttp.ClientSession(headers=None)` is constructed).  Mirrors the
source: if the inbound request has no `Authorization` header the session
headers are `overwrite_headers` unchanged; otherwise the code builds
`{"Authorization": auth}` and calls `.update(overwrite_headers)` on it, which
raises `TypeError` when `overwrite_headers` is `None`. -/
def create_session (request_headers : Dict) (overwrite_headers : Option Dict) :
    Except String (Option Dict) :=
  match Dict.get request_headers "Authorization" with
  | none => .ok overwrite_headers
  | some auth =>
    match overwrite_headers with
    | none => .error typeErrorNoneNotIterable
    | some ow => .ok (some (Dict.update [("Authorization", auth)] ow))

/-- Python `p.strip("/")`: remove all leading and trailing `/` characters. -/
def stripSlashes (s : String) : String :=
  String.mk (((s.data.dropWhile fun c => c = '/').reverse.dropWhile fun c => c = '/').reverse)

/-- Embeds `_endpoint(*parts)`: strip slashes from each part, join with `/`,
and prefix the fixed API base. -/
def endpoint (parts : List String) : String :=
  "https://api.github.com/" ++ String.intercalate "/" (parts.map stripSlashes)

/-- Python `s.endswith(suffix)`: the characters of `suffix` are a suffix of
the characters of `s`. -/
def strEndsWith (s suffix : String) : Bool :=
  suffix.data.isSuffixOf s.data

/-- Embeds `DIST_EXTS`: possible distribution extensions. -/
def DIST_EXTS : List String := [".tar.gz", ".whl"]

/-- An upstream release asset, as the handlers read it from the JSON:
`asset["id"]` (already stringified, as `str(asset["id"])` is the only use),
`asset["name"]`, `asset["state"]`. -/
structure Asset where
  id : String
  name : String
  state : String
deriving DecidableEq, Repr

/-- An upstream release; `assets = none` models a release JSON object with no
`"assets"` key, which `release.get("assets", [])` treats as `[]`. -/
structure Release where
  assets : Option (List Asset)
deriving DecidableEq, Repr

/-- Embeds `_is_dist(asset)`: name must end in a recognized extension and the
state must be `"uploaded"`; two early-return checks as in the source. -/
def is_dist (asset : Asset) : Bool :=
  if !(DIST_EXTS.any fun ext => strEndsWith asset.name ext) then false
  else if asset.state != "uploaded" then false
  else true

/-- Embeds `_iter_dist_assets(data)`: for each release in order, for each
asset of `release.get("assets", [])` in order, yield it if `_is_dist` holds.
The generator is consumed exactly once, so it is modelled as the list of
yielded assets. -/
def iter_dist_assets : List Release → List Asset
  | [] => []
  | release :: rest => ((release.assets.getD []).filter fun a => is_dist a) ++ iter_dist_assets rest

/-- Embeds `REPOSITORIES`: the static project-name registry. -/
def REPOSITORIES : List (String × (String × String)) :=
  [("sampleproject", ("uranusjr", "sampleproject"))]

/-- Python `REPOSITORIES[name]` as an `Option` (the source catches the
`KeyError` and turns it into `HTTPNotFound`). -/
def lookupRepo (name : String) : Option (String × String) :=
  (REPOSITORIES.find? fun kv => kv.1 == name).map fun kv => kv.2

/-- Embeds `request.app.router["download"].url_for(...)`: fills the route
template `/files/{user}/{repo}/{asset_id}/{filename}`. -/
def url_for_download (user repo asset_id filename : String) : String :=
  "/files/" ++ user ++ "/" ++ repo ++ "/" ++ asset_id ++ "/" ++ filename

/-- One `<p><a href=...>` entry of the index page, as serialized by
`et.tostring(..., method="html")`. -/
def renderAnchor (href text : String) : String :=
  "<p><a href=\"" ++ href ++ "\">" ++ text ++ "</a></p>"

/-- The anchors the `project` handler emits: one `(href, text)` pair per asset
yielded by `_iter_dist_assets`, in yield order. -/
def renderAnchors (user repo : String) (data : List Release) : List (String × String) :=
  (iter_dist_assets data).map fun a => (url_for_download user repo a.id a.name, a.name)

/-- The serialized `<body>` element holding the anchors. -/
def renderIndexBody (anchors : List (String × String)) : String :=
  "<body>" ++ String.join (anchors.map fun hs => renderAnchor hs.1 hs.2) ++ "</body>"

/-- The result of `await api_resp.json()`, abstracted to the three shapes the
handlers distinguish: an object carrying a `"message"` field, an array of
releases, or anything else (on which the handlers would raise). -/
inductive ApiJson where
  | errObj (message : String)
  | releaseList (releases : List Release)
  | other
deriving DecidableEq, Repr

/-- An upstream HTTP response as the handlers observe it: status, parsed JSON
body, response headers, and raw content bytes (bytes as `Nat`). -/
structure UpstreamResponse where
  status : Nat
  json : ApiJson
  headers : Dict
  content : List Nat
deriving DecidableEq, Repr

/-- Outbound-call events a handler performs, in order. -/
inductive Event where
  | sessionCreated (headers : Option Dict)
  | getRequest (url : String)
deriving DecidableEq, Repr

/-- Events on the streamed client response: `prepare` (sends status line and
headers) and each chunk write, in order. -/
inductive StreamEvent where
  | prepared (headers : Dict)
  | wrote (chunk : List Nat)
deriving DecidableEq, Repr

/-- What a handler hands back to aiohttp: `HTTPNotFound`, a plain `Response`
(status, body, optional content type), a prepared `StreamResponse` described
by its event trace, or an uncaught python exception. -/
inductive HandlerResult where
  | httpNotFound
  | response (status : Nat) (body : String) (contentType : Option String)
  | streamed (trace : List StreamEvent)
  | pyError (msg : String)
deriving DecidableEq, Repr

/-- Embeds the `project` handler (`GET /index/{name}/`).  `up` is the upstream
oracle giving the response to a GET of a URL; `request_headers` the inbound
headers; `name` the matched path parameter.  Returns the result and the list
of outbound events (session creation, upstream GET) that occurred. -/
def project (up : String → UpstreamResponse) (request_headers : Dict) (name : String) :
    HandlerResult × List Event :=
  match lookupRepo name with
  | none => (.httpNotFound, [])
  | some (user, repo) =>
    let url := endpoint ["repos", user, repo, "releases"]
    match create_session request_headers none with
    | .error e => (.pyError e, [])
    | .ok sessionHeaders =>
      let api_resp := up url
      let events := [Event.sessionCreated sessionHeaders, Event.getRequest url]
      if api_resp.status != 200 then
        match api_resp.json with
        | .errObj msg => (.response api_resp.status msg none, events)
        | _ => (.pyError "KeyError: message", events)
      else
        match api_resp.json with
        | .releaseList data =>
          (.response 200 (renderIndexBody (renderAnchors user repo data)) (some "text/html"),
            events)
        | _ => (.pyError "releases JSON is not a list", events)

/-- Embeds `CHUNK_SIZE`. -/
def CHUNK_SIZE : Nat := 1024

/-- The chunks produced by repeatedly calling `api_resp.content.read(CHUNK_SIZE)`
until a read returns zero bytes: each read yields up to `CHUNK_SIZE` of the
remaining content, and the loop's writes are exactly the nonempty reads. -/
def readChunks (content : List Nat) : List (List Nat) :=
  if h : content = [] then []
  else content.take CHUNK_SIZE :: readChunks (content.drop CHUNK_SIZE)
termination_by content.length
decreasing_by
  have hpos : 0 < content.length := List.length_pos.mpr h
  simp [List.length_drop, CHUNK_SIZE]
  omega

/-- Embeds the `download` handler (`GET /files/{user}/{repo}/{asset_id}/{filename}`).
The upstream URL is rebuilt from user, repo and asset id only; the session is
created with `{"Accept": "application/octet-stream"}` as overwrite headers; a
non-200 upstream status propagates status and `json()["message"]`; on 200 the
response is prepared with the upstream headers and the content is streamed in
`CHUNK_SIZE` reads until a read yields zero bytes. -/
def download (up : String → UpstreamResponse) (request_headers : Dict)
    (user repo asset_id filename : String) : HandlerResult × List Event :=
  let url := endpoint ["repos", user, repo, "releases/assets", asset_id]
  match create_session request_headers (some [("Accept", "application/octet-stream")]) with
  | .error e => (.pyError e, [])
  | .ok sessionHeaders =>
    let api_resp := up url
    let events := [Event.sessionCreated sessionHeaders, Event.getRequest url]
    if api_resp.status != 200 then
      match api_resp.json with
      | .errObj msg => (.response api_resp.status msg none, events)
      | _ => (.pyError "KeyError: message", events)
    else
      (.streamed
        (StreamEvent.prepared api_resp.headers
          :: (readChunks api_resp.content).map StreamEvent.wrote),
        events)

/-! Concrete upstream oracles used in closed statements. -/

/-- An upstream that answers every GET with an empty release list. -/
def stubUpstream : String → UpstreamResponse :=
  fun _ => ⟨200, .releaseList [], [], []⟩

/-- The sample release list of the scenario: one release, one uploaded
`.tar.gz` asset and one pending `.whl` asset. -/
def sampleReleases : List Release :=
  [⟨some [⟨"1", "sampleproject-1.0.tar.gz", "uploaded"⟩,
          ⟨"2", "sampleproject-1.0.whl", "pending"⟩]⟩]

/-- An upstream that answers every GET with `sampleReleases`. -/
def sampleUpstream : String → UpstreamResponse :=
  fun _ => ⟨200, .releaseList sampleReleases, [], []⟩

/-- C1: the claim fails on the code.  When the inbound request carries an
`Authorization` header and the factory is called with no caller-supplied
default headers — exactly how the index path calls it — `_create_session`
does not return a client with headers `{"Authorization": <value>}`: it
executes `headers.update(None)`, which raises `TypeError`, so the whole
`project` handler dies with an uncaught exception instead of making the
outbound call. -/
theorem c1_auth_without_defaults_raises :
    create_session [("Authorization", "token")] none = .error typeErrorNoneNotIterable
    ∧ (project stubUpstream [("Authorization", "token")] "sampleproject").1
        = .pyError typeErrorNoneNotIterable := by
  constructor
  · rfl
  · decide

/-- C2: an asset qualifies iff its name ends with `.tar.gz` or `.whl` and its
state is `"uploaded"`; in particular a `.whl` asset in state `"pending"` is
excluded. -/
theorem c2_asset_filter_iff :
    (∀ a : Asset,
      is_dist a = true ↔
        ((strEndsWith a.name ".tar.gz" = true ∨ strEndsWith a.name ".whl" = true)
          ∧ a.state = "uploaded"))
    ∧ is_dist ⟨"2", "sampleproject-1.0.whl", "pending"⟩ = false := by
  constructor
  · intro a
    simp only [is_dist, DIST_EXTS, List.any_cons, List.any_nil, Bool.or_false]
    by_cases h1 : strEndsWith a.name ".tar.gz" = true <;>
      by_cases h2 : strEndsWith a.name ".whl" = true <;>
      by_cases h3 : a.state = "uploaded" <;>
      simp [h1, h2, h3]
  · decide

/-- Witness for C2: both directions of the equivalence at concrete assets. -/
theorem c2_asset_filter_iff_witness :
    is_dist ⟨"1", "sampleproject-1.0.tar.gz", "uploaded"⟩ = true :=
  (c2_asset_filter_iff.1 ⟨"1", "sampleproject-1.0.tar.gz", "uploaded"⟩).mpr
    (by constructor
        · left; decide
        · rfl)

/-- C4: a project name absent from the registry yields `HTTPNotFound` and the
handler performs no outbound work at all: no client session is created and no
upstream GET is issued (the event list is empty). -/
theorem c4_unregistered_project_not_found (up : String → UpstreamResponse)
    (request_headers : Dict) (name : String) (h : lookupRepo name = none) :
    project up request_headers name = (.httpNotFound, []) := by
  simp [project, h]

/-- Witness for C4 at the concrete name `"nosuchproject"`. -/
theorem c4_unregistered_project_not_found_witness :
    lookupRepo "nosuchproject" = none
    ∧ project stubUpstream [] "nosuchproject" = (.httpNotFound, []) :=
  ⟨by decide, c4_unregistered_project_not_found stubUpstream [] "nosuchproject" (by decide)⟩

/-- C8: the sample scenario.  With the registry entry
`{"sampleproject": ("uranusjr", "sampleproject")}` and the sample upstream
release list, the rendered index has exactly one anchor, whose text is
`sampleproject-1.0.tar.gz` and whose href is
`/files/uranusjr/sampleproject/1/sampleproject-1.0.tar.gz`. -/
theorem c8_sample_scenario :
    renderAnchors "uranusjr" "sampleproject" sampleReleases
      = [("/files/uranusjr/sampleproject/1/sampleproject-1.0.tar.gz",
          "sampleproject-1.0.tar.gz")]
    ∧ (project sampleUpstream [] "sampleproject").1
      = .response 200
          ("<body><p><a href=\"/files/uranusjr/sampleproject/1/sampleproject-1.0.tar.gz\">"
            ++ "sampleproject-1.0.tar.gz</a></p></body>")
          (some "text/html") := by
  constructor
  · decide
  · decide

/-- C10: a release whose JSON object has no `"assets"` key contributes
nothing to the yielded assets and does not fail; the releases before and
after it are processed unchanged. -/
theorem c10_missing_assets_key_skipped (pre post : List Release) (r : Release)
    (h : r.assets = none) :
    iter_dist_assets (pre ++ r :: post) = iter_dist_assets (pre ++ post) := by
  induction pre with
  | nil => simp [iter_dist_assets, h]
  | cons p rest ih => simp [iter_dist_assets, ih]

/-- Witness for C10: a no-`assets` release between two ordinary releases. -/
theorem c10_missing_assets_key_skipped_witness :
    (Release.mk none).assets = none
    ∧ iter_dist_assets
        [⟨some [⟨"1", "a-1.0.tar.gz", "uploaded"⟩]⟩, ⟨none⟩,
         ⟨some [⟨"2", "b-2.0.whl", "uploaded"⟩]⟩]
      = iter_dist_assets
        [⟨some [⟨"1", "a-1.0.tar.gz", "uploaded"⟩]⟩,
         ⟨some [⟨"2", "b-2.0.whl", "uploaded"⟩]⟩] :=
  ⟨rfl,
   c10_missing_assets_key_skipped [⟨some [⟨"1", "a-1.0.tar.gz", "uploaded"⟩]⟩]
     [⟨some [⟨"2", "b-2.0.whl", "uploaded"⟩]⟩] ⟨none⟩ rfl⟩

/-- C7: the iterator yields exactly the qualifying assets of the flattened
release list, in order (it is the order-preserving filter of the
concatenation, hence a sublist of it), and the rendered anchors are its
image, entry for entry. -/
theorem c7_order_preserving (data : List Release) (user repo : String) :
    iter_dist_assets data
      = (data.map fun r => r.assets.getD []).flatten.filter (fun a => is_dist a)
    ∧ List.Sublist (iter_dist_assets data) (data.map fun r => r.assets.getD []).flatten
    ∧ renderAnchors user repo data
      = (((data.map fun r => r.assets.getD []).flatten.filter fun a => is_dist a).map
          fun a => (url_for_download user repo a.id a.name, a.name)) := by
  have hfilter : iter_dist_assets data
      = (data.map fun r => r.assets.getD []).flatten.filter (fun a => is_dist a) := by
    induction data with
    | nil => rfl
    | cons r rest ih => simp [iter_dist_assets, ih, List.filter_append]
  refine ⟨hfilter, ?_, ?_⟩
  · rw [hfilter]
    exact List.filter_sublist _
  · unfold renderAnchors
    rw [hfilter]

/-- Helper for the header-dict model: replacing the value stored under key
`a` does not change lookups of a different key `k`. -/
theorem dict_find_map_other (d : Dict) (a v k : String) (h : a ≠ k) :
    ((d.map fun kv => if kv.1 == a then (a, v) else kv).find? fun kv => kv.1 == k)
      = d.find? fun kv => kv.1 == k := by
  induction d with
  | nil => rfl
  | cons kv rest ih =>
    rw [List.map_cons, List.find?_cons, List.find?_cons]
    by_cases hka : kv.1 = a
    · have e1 : (if kv.1 == a then (a, v) else kv) = (a, v) := by simp [hka]
      have e2 : ((a, v).1 == k) = false := by simp [h]
      have e3 : (kv.1 == k) = false := by simp [hka, h]
      rw [e1]
      simp only [e2, e3]
      exact ih
    · have e1 : (if kv.1 == a then (a, v) else kv) = kv := by simp [hka]
      rw [e1]
      cases hck : kv.1 == k
      · simp only [ih]
      · simp only []

/-- Helper: `Dict.insert` under key `a` does not change lookups of `k ≠ a`. -/
theorem dict_get_insert_other (d : Dict) (a v k : String) (h : a ≠ k) :
    Dict.get (Dict.insert d a v) k = Dict.get d k := by
  unfold Dict.insert Dict.get
  by_cases hf : ((d.find? fun kv => kv.1 == a).isSome)
  · rw [if_pos hf, dict_find_map_other d a v k h]
  · rw [if_neg hf, List.find?_append]
    have e : (([(a, v)] : Dict).find? fun kv => kv.1 == k) = none := by
      simp [List.find?_cons, beq_eq_false_iff_ne.mpr h]
    rw [e]
    cases d.find? fun kv => kv.1 == k <;> rfl

/-- Helper: `d.update(e)` leaves every key absent from `e` at its value in
`d`. -/
theorem dict_get_update_none (ow : Dict) (k : String) :
    Dict.get ow k = none → ∀ d, Dict.get (Dict.update d ow) k = Dict.get d k := by
  induction ow with
  | nil => intro _ d; rfl
  | cons kv rest ih =>
    intro h d
    have h1 : (kv.1 == k) = false := by
      cases hc : kv.1 == k
      · rfl
      · simp [Dict.get, List.find?_cons, hc] at h
    have h2 : Dict.get rest k = none := by
      simpa [Dict.get, List.find?_cons, h1] using h
    have hstep : Dict.update d (kv :: rest) = Dict.update (Dict.insert d kv.1 kv.2) rest := rfl
    rw [hstep, ih h2, dict_get_insert_other d kv.1 kv.2 k (beq_eq_false_iff_ne.mp h1)]

/-- C9 fails as stated: caller-supplied defaults win on every conflicting
key, `Authorization` included.  With inbound value `"inbound-token"` and a
default mapping carrying `Authorization: overwritten`, the session's
`Authorization` is `"overwritten"`, not the inbound value. -/
theorem c9_defaults_overwrite_auth_counterexample :
    create_session [("Authorization", "inbound-token")]
        (some [("Authorization", "overwritten")])
      = .ok (some [("Authorization", "overwritten")])
    ∧ ("overwritten" : String) ≠ "inbound-token" := by
  constructor
  · rfl
  · decide

/-- C9 amended: for every inbound request with an `Authorization` header and
every caller-supplied default mapping that does not itself bind
`Authorization`, the created session carries the inbound value (defaults win
only on the keys they actually bind). -/
theorem c9_auth_forwarded_unless_overwritten (inbound ow : Dict) (auth : String)
    (h1 : Dict.get inbound "Authorization" = some auth)
    (h2 : Dict.get ow "Authorization" = none) :
    create_session inbound (some ow)
      = .ok (some (Dict.update [("Authorization", auth)] ow))
    ∧ Dict.get (Dict.update [("Authorization", auth)] ow) "Authorization" = some auth := by
  constructor
  · simp [create_session, h1]
  · rw [dict_get_update_none ow "Authorization" h2]
    simp [Dict.get, List.find?_cons]

/-- Witness for C9 (amended), at the download path's actual default mapping
`{"Accept": "application/octet-stream"}`. -/
theorem c9_auth_forwarded_unless_overwritten_witness :
    Dict.get [("Authorization", "tok")] "Authorization" = some "tok"
    ∧ Dict.get [("Accept", "application/octet-stream")] "Authorization" = none
    ∧ (create_session [("Authorization", "tok")]
          (some [("Accept", "application/octet-stream")])
        = .ok (some (Dict.update [("Authorization", "tok")]
            [("Accept", "application/octet-stream")]))
      ∧ Dict.get (Dict.update [("Authorization", "tok")]
            [("Accept", "application/octet-stream")]) "Authorization" = some "tok") :=
  ⟨by decide, by decide,
   c9_auth_forwarded_unless_overwritten [("Authorization", "tok")]
     [("Accept", "application/octet-stream")] "tok" (by decide) (by decide)⟩

/-- C3: whenever the upstream call was actually made (for the index path that
requires the session creation not to have raised, i.e. no inbound
`Authorization` header, cf. C1) and the upstream status is not 200, both
handlers return a response whose status is the upstream status and whose body
is the upstream JSON's `message` field. -/
theorem c3_upstream_error_propagated :
    (∀ (up : String → UpstreamResponse) (request_headers : Dict) (name user repo msg : String),
        lookupRepo name = some (user, repo) →
        Dict.get request_headers "Authorization" = none →
        (up (endpoint ["repos", user, repo, "releases"])).status ≠ 200 →
        (up (endpoint ["repos", user, repo, "releases"])).json = .errObj msg →
        (project up request_headers name).1
          = .response (up (endpoint ["repos", user, repo, "releases"])).status msg none)
    ∧ (∀ (up : String → UpstreamResponse) (request_headers : Dict)
          (user repo asset_id filename msg : String),
        (up (endpoint ["repos", user, repo, "releases/assets", asset_id])).status ≠ 200 →
        (up (endpoint ["repos", user, repo, "releases/assets", asset_id])).json = .errObj msg →
        (download up request_headers user repo asset_id filename).1
          = .response (up (endpoint ["repos", user, repo, "releases/assets", asset_id])).status
              msg none) := by
  constructor
  · intro up request_headers name user repo msg hlook hauth hstatus hjson
    simp [project, hlook, create_session, hauth, bne_iff_ne, hstatus, hjson]
  · intro up request_headers user repo asset_id filename msg hstatus hjson
    cases hget : Dict.get request_headers "Authorization" with
    | none => simp [download, create_session, hget, bne_iff_ne, hstatus, hjson]
    | some auth => simp [download, create_session, hget, bne_iff_ne, hstatus, hjson]

/-- The upstream of the claim's example: 403, rate limited. -/
def rateLimitedUpstream : String → UpstreamResponse :=
  fun _ => ⟨403, .errObj "rate limited", [], []⟩

/-- Witness for C3: upstream 403 with message `"rate limited"` yields 403 with
body `"rate limited"` on the index path, and likewise on the download path. -/
theorem c3_upstream_error_propagated_witness :
    (project rateLimitedUpstream [] "sampleproject").1 = .response 403 "rate limited" none
    ∧ (download rateLimitedUpstream [] "uranusjr" "sampleproject" "1"
        "sampleproject-1.0.tar.gz").1 = .response 403 "rate limited" none :=
  ⟨c3_upstream_error_propagated.1 rateLimitedUpstream [] "sampleproject" "uranusjr"
      "sampleproject" "rate limited" (by decide) rfl (by decide) rfl,
   c3_upstream_error_propagated.2 rateLimitedUpstream [] "uranusjr" "sampleproject" "1"
      "sampleproject-1.0.tar.gz" "rate limited" (by decide) rfl⟩

/-- The chunk loop reconstructs the upstream body byte for byte. -/
theorem readChunks_flatten (content : List Nat) : (readChunks content).flatten = content := by
  by_cases h : content = []
  · subst h
    rw [readChunks]
    simp
  · rw [readChunks]
    have ih := readChunks_flatten (content.drop CHUNK_SIZE)
    simp [h, ih]
termination_by content.length
decreasing_by
  have hpos : 0 < content.length := List.length_pos.mpr h
  simp [List.length_drop, CHUNK_SIZE]
  omega

/-- Every chunk the loop writes is nonempty (the loop stops at the first
zero-byte read) and holds at most `CHUNK_SIZE` bytes. -/
theorem readChunks_bounded (content : List Nat) :
    ∀ c ∈ readChunks content, c ≠ [] ∧ c.length ≤ CHUNK_SIZE := by
  by_cases h : content = []
  · subst h
    rw [readChunks]
    intro c hc
    simp at hc
  · rw [readChunks]
    simp only [h, dite_false]
    intro c hc
    rcases List.mem_cons.mp hc with hc | hc
    · subst hc
      refine ⟨?_, List.length_take_le CHUNK_SIZE content⟩
      rw [Ne, List.take_eq_nil_iff]
      simp [CHUNK_SIZE, h]
    · exact readChunks_bounded (content.drop CHUNK_SIZE) c hc
termination_by content.length
decreasing_by
  have hpos : 0 < content.length := List.length_pos.mpr h
  simp [List.length_drop, CHUNK_SIZE]
  omega

/-- C5: on upstream 200 the download handler's client response is a streamed
response prepared with the upstream headers before any chunk is written,
followed by exactly the loop's chunk writes; the chunks concatenate to the
upstream body byte for byte, each chunk is a bounded read of at most
`CHUNK_SIZE` bytes, and none is empty — the loop ends exactly at the first
zero-byte read. -/
theorem c5_streaming (up : String → UpstreamResponse) (request_headers : Dict)
    (user repo asset_id filename : String) (resp : UpstreamResponse)
    (hresp : up (endpoint ["repos", user, repo, "releases/assets", asset_id]) = resp)
    (hstatus : resp.status = 200) :
    (download up request_headers user repo asset_id filename).1
      = .streamed (StreamEvent.prepared resp.headers
          :: (readChunks resp.content).map StreamEvent.wrote)
    ∧ (readChunks resp.content).flatten = resp.content
    ∧ ∀ c ∈ readChunks resp.content, c ≠ [] ∧ c.length ≤ CHUNK_SIZE := by
  refine ⟨?_, readChunks_flatten resp.content, readChunks_bounded resp.content⟩
  cases hget : Dict.get request_headers "Authorization" with
  | none => simp [download, create_session, hget, hresp, hstatus]
  | some auth => simp [download, create_session, hget, hresp, hstatus]

/-- An upstream answering every GET with a small binary body. -/
def smallBinaryUpstream : String → UpstreamResponse :=
  fun _ => ⟨200, .other, [("Content-Type", "application/octet-stream")], [7, 8, 9]⟩

/-- Witness for C5 at a three-byte body. -/
theorem c5_streaming_witness :
    (download smallBinaryUpstream [] "uranusjr" "sampleproject" "1"
        "sampleproject-1.0.tar.gz").1
      = .streamed (StreamEvent.prepared [("Content-Type", "application/octet-stream")]
          :: (readChunks [7, 8, 9]).map StreamEvent.wrote)
    ∧ (readChunks [7, 8, 9]).flatten = [7, 8, 9] :=
  ⟨(c5_streaming smallBinaryUpstream [] "uranusjr" "sampleproject" "1"
      "sampleproject-1.0.tar.gz"
      ⟨200, .other, [("Content-Type", "application/octet-stream")], [7, 8, 9]⟩ rfl rfl).1,
   (c5_streaming smallBinaryUpstream [] "uranusjr" "sampleproject" "1"
      "sampleproject-1.0.tar.gz"
      ⟨200, .other, [("Content-Type", "application/octet-stream")], [7, 8, 9]⟩ rfl rfl).2.1⟩

/-- Strings without `/` characters are unchanged by `strip("/")`. -/
theorem stripSlashes_of_no_slash (s : String) (h : ∀ c ∈ s.data, c ≠ '/') :
    stripSlashes s = s := by
  have hd : ∀ (l : List Char), (∀ c ∈ l, c ≠ '/') → l.dropWhile (fun c => c = '/') = l := by
    intro l hl
    cases l with
    | nil => rfl
    | cons a t =>
      rw [List.dropWhile_cons]
      have ha : ¬(a = '/') := hl a (List.mem_cons_self a t)
      simp [ha]
  unfold stripSlashes
  rw [hd s.data h]
  rw [hd s.data.reverse (by intro c hc; exact h c (List.mem_reverse.mp hc))]
  rw [List.reverse_reverse]

/-- `String.intercalate` at a five-element list, unfolded. -/
theorem intercalate_five (s a b c d e : String) :
    String.intercalate s [a, b, c, d, e] = a ++ s ++ b ++ s ++ c ++ s ++ d ++ s ++ e := rfl

/-- C6: the download handler's behaviour — in particular the upstream URL it
issues — is independent of the `filename` path segment; the GET it performs
is addressed at the URL built from user, repo and asset id alone, which is
`https://api.github.com/repos/{user}/{repo}/releases/assets/{asset_id}`
whenever the path segments carry no `/` characters (path segments never do). -/
theorem c6_filename_not_in_url :
    (∀ (up : String → UpstreamResponse) (request_headers : Dict)
        (user repo asset_id f1 f2 : String),
        download up request_headers user repo asset_id f1
          = download up request_headers user repo asset_id f2)
    ∧ (∀ (up : String → UpstreamResponse) (request_headers : Dict)
          (user repo asset_id filename : String),
        Event.getRequest (endpoint ["repos", user, repo, "releases/assets", asset_id])
          ∈ (download up request_headers user repo asset_id filename).2)
    ∧ (∀ user repo asset_id : String,
        (∀ c ∈ user.data, c ≠ '/') →
        (∀ c ∈ repo.data, c ≠ '/') →
        (∀ c ∈ asset_id.data, c ≠ '/') →
        endpoint ["repos", user, repo, "releases/assets", asset_id]
          = "https://api.github.com/repos/" ++ user ++ "/" ++ repo
              ++ "/releases/assets/" ++ asset_id) := by
  refine ⟨?_, ?_, ?_⟩
  · intro up request_headers user repo asset_id f1 f2
    rfl
  · intro up request_headers user repo asset_id filename
    cases hget : Dict.get request_headers "Authorization" with
    | none =>
      simp only [download, create_session, hget]
      split
      · split <;> simp
      · simp
    | some auth =>
      simp only [download, create_session, hget]
      split
      · split <;> simp
      · simp
  · intro user repo asset_id hu hr ha
    have hrepos : stripSlashes "repos" = "repos" := by decide
    have hra : stripSlashes "releases/assets" = "releases/assets" := by decide
    have hsplit1 : ("https://api.github.com/repos/" : String)
        = "https://api.github.com/" ++ "repos" ++ "/" := by decide
    have hsplit2 : ("/releases/assets/" : String) = "/" ++ "releases/assets" ++ "/" := by decide
    simp only [endpoint, List.map_cons, List.map_nil, hrepos, hra,
      stripSlashes_of_no_slash user hu, stripSlashes_of_no_slash repo hr,
      stripSlashes_of_no_slash asset_id ha, intercalate_five]
    rw [hsplit1, hsplit2]
    simp only [String.append_assoc]

/-- Witness for C6 at concrete path parameters: the URL format at slash-free
segments, and two downloads differing only in the filename segment behaving
identically. -/
theorem c6_filename_not_in_url_witness :
    (∀ c ∈ ("uranusjr" : String).data, c ≠ '/')
    ∧ (endpoint ["repos", "uranusjr", "sampleproject", "releases/assets", "42"]
        = "https://api.github.com/repos/" ++ "uranusjr" ++ "/" ++ "sampleproject"
            ++ "/releases/assets/" ++ "42")
    ∧ (download stubUpstream [] "uranusjr" "sampleproject" "42" "a.whl"
        = download stubUpstream [] "uranusjr" "sampleproject" "42" "b.tar.gz") :=
  ⟨by decide,
   c6_filename_not_in_url.2.2 "uranusjr" "sampleproject" "42"
     (by decide) (by decide) (by decide),
   c6_filename_not_in_url.1 stubUpstream [] "uranusjr" "sampleproject" "42"
     "a.whl" "b.tar.gz"⟩

/-- Witness for C7 at the sample release list. -/
theorem c7_order_preserving_witness :
    iter_dist_assets sampleReleases
      = ((sampleReleases.map fun r => r.assets.getD []).flatten.filter fun a => is_dist a) :=
  (c7_order_preserving sampleReleases "uranusjr" "sampleproject").1
